import Mathlib

/-!
Verification of the sync core of `singer_sdk/streams/core.py`.

The Python module is shallowly embedded below.  Conventions:

* Python `dict` rows are association lists `List (String × Int)`; the
  replication-key value domain (primitives / timestamps) is modelled by `Int`
  with its natural order.
* Wall-clock time (`utc_now()` / `pendulum`) is impure in the source; here the
  clock is an explicit argument (`now : Int`, or `clock : Nat → Int` giving the
  time observed while processing the n-th row of a pass).
* Python truthiness is made explicit: an empty string, empty dict/list or
  `None` is falsy.
* Exceptions are `Except` / error-carrying results; raising skips the rest of
  the function, exactly as the functional translation does.
* Helpers imported from `singer_sdk.helpers._state` are not part of the given
  sources; they are modelled from the specification and are marked
  `Modelled from the spec:` in their doc comments.
-/

namespace SingerSdk

/-- A partition context: an opaque key-value mapping (Python `dict`),
`none` at call sites meaning "the whole stream is one partition". -/
abbrev Part := List (String × String)

/-- A record row: property name to value.  Values live in `Int`, the ordered
value domain standing for both primitives and timestamps. -/
abbrev Record := List (String × Int)

/-- Python truthiness of an optional partition dict: `None` and `{}` are falsy. -/
def partTruthy : Option Part → Bool
  | none => false
  | some p => !p.isEmpty

/-- Python truthiness of an optional string: `None` and the empty string are falsy. -/
def strTruthy : Option String → Bool
  | none => false
  | some s => !(s == "")

/-- First-match association-list lookup, standing for Python dict access. -/
def rlookup (k : String) : Record → Option Int
  | [] => none
  | (k2, v) :: rest => if k2 = k then some v else rlookup k rest

/-- The configuration of one `Stream` object from `core.py`, restricted to the
fields the sync core reads.  `timestamp_fields` embeds the schema information
consumed through `is_datetime_type`: the set of property names whose declared
schema type is a date-time type. -/
structure Stream where
  name : String
  _replication_key : Option String
  _primary_keys : Option (List String)
  forced_replication_method : Option String
  is_sorted : Bool
  timestamp_fields : List String
  STATE_MSG_FREQUENCY : Nat
  _MAX_RECORDS_LIMIT : Option Nat
deriving DecidableEq, Repr

/-- `Stream.replication_key` property: `if not self._replication_key: return None`. -/
def replication_key (s : Stream) : Option String :=
  match s._replication_key with
  | none => none
  | some k => if k = "" then none else some k

/-- `Stream.primary_keys` property: `if not self._primary_keys: return None`. -/
def primary_keys (s : Stream) : Option (List String) :=
  match s._primary_keys with
  | none => none
  | some ks => if ks.isEmpty then none else some ks

/-- `Stream.is_timestamp_replication_key`: false without a replication key,
else `is_datetime_type` of the key's schema entry (membership in
`timestamp_fields`). -/
def is_timestamp_replication_key (s : Stream) : Bool :=
  match replication_key s with
  | none => false
  | some k => s.timestamp_fields.contains k

/-- String constant `REPLICATION_FULL_TABLE`. -/
def REPLICATION_FULL_TABLE : String := "FULL_TABLE"

/-- String constant `REPLICATION_INCREMENTAL`. -/
def REPLICATION_INCREMENTAL : String := "INCREMENTAL"

/-- String constant `REPLICATION_LOG_BASED`. -/
def REPLICATION_LOG_BASED : String := "LOG_BASED"

/-- `Stream.replication_method` property (core.py lines 284-291). -/
def replication_method (s : Stream) : String :=
  if strTruthy s.forced_replication_method then
    s.forced_replication_method.getD ""
  else if (replication_key s).isSome then
    REPLICATION_INCREMENTAL
  else
    REPLICATION_FULL_TABLE

/-- `Stream.get_replication_key_signpost` (core.py lines 149-165): for a
timestamp replication key the body returns `utc_now()` — the wall clock at the
moment of the call, passed here as the explicit argument `now`; otherwise
`None`.  The body contains no caching. -/
def get_replication_key_signpost (s : Stream) (now : Int) : Option Int :=
  if is_timestamp_replication_key s then some now else none

/-- One catalog entry, restricted to the fields `apply_catalog` reads
(`singer.CatalogEntry` attributes, each possibly `None`). -/
structure CatalogEntry where
  key_properties : Option (List String)
  replication_key : Option String
  replication_method : Option String
deriving DecidableEq, Repr

/-- A catalog: stream name to entry; `catalog.get_stream(name)` is lookup. -/
abbrev CatalogDict := List (String × CatalogEntry)

/-- `Catalog.get_stream(self.name)`: first entry with the given name. -/
def catalog_get_stream (cat : CatalogDict) (nm : String) : Option CatalogEntry :=
  match cat with
  | [] => none
  | (n, e) :: rest => if n = nm then some e else catalog_get_stream rest nm

/-- `Stream.apply_catalog` (core.py lines 462-472): when a catalog entry for
the stream exists, assign `primary_keys` and `replication_key` from the entry
unconditionally (through their setters, which store the raw value), and assign
`forced_replication_method` only when the entry's `replication_method` is
truthy. -/
def apply_catalog (s : Stream) (cat : CatalogDict) : Stream :=
  match catalog_get_stream cat s.name with
  | none => s
  | some e =>
    let s1 := { s with
      _primary_keys := e.key_properties,
      _replication_key := e.replication_key }
    if strTruthy e.replication_method then
      { s1 with forced_replication_method := e.replication_method }
    else s1

/-- The raw per-stream/partition state dict as read by
`get_starting_timestamp`: the durable entries `replication_key` and
`replication_key_value` (an ISO-8601 string in the source). -/
structure RawStreamState where
  replication_key : Option String
  replication_key_value : Option String
deriving DecidableEq, Repr

/-- `pendulum.parse` is an external collaborator; parsing an ISO-8601 string
into a datetime is modelled as the identity on the string representation. -/
def pendulum_parse (v : String) : String := v

/-- `Stream.get_starting_timestamp` (core.py lines 113-128).  The state dict
for the partition and the optional `start_date` config entry are explicit
arguments. -/
def get_starting_timestamp (s : Stream) (state : RawStreamState)
    (start_date : Option String) : Option String :=
  if is_timestamp_replication_key s then
    match state.replication_key_value with
    | some v =>
      if v ≠ "" ∧ replication_key s = state.replication_key then
        some (pendulum_parse v)
      else start_date.map pendulum_parse
    | none => start_date.map pendulum_parse
  else start_date.map pendulum_parse

/-- The guard of `get_starting_timestamp`'s bookmark branch, as one predicate:
timestamp-typed key, a truthy stored value, and the stored key name equal to
the stream's current replication key. -/
def bookmark_usable (s : Stream) (state : RawStreamState) : Bool :=
  is_timestamp_replication_key s &&
    (match state.replication_key_value with
     | some v => !(v == "")
     | none => false) &&
    decide (replication_key s = state.replication_key)

/-- One bookmark record of the state tree, per (stream, partition): the
durable `replication_key` / `replication_key_value` pair plus the transient
progress marker (tracked key name and tentative maximum) used during an open
pass. -/
structure BookmarkState where
  replication_key : Option String
  replication_key_value : Option Int
  progress_max : Option (String × Int)
deriving DecidableEq, Repr

/-- A freshly created (blank) bookmark record. -/
def emptyBookmark : BookmarkState :=
  { replication_key := none, replication_key_value := none, progress_max := none }

/-- Errors raised from `increment_state` / `_increment_stream_state`:
`ValueError` for a missing replication key, `InvalidStreamSortException` for
an ordering violation. -/
inductive IncrementError where
  | valueError : String → IncrementError
  | invalidStreamSort : IncrementError
deriving DecidableEq, Repr

/-- Is the candidate value strictly above the signpost ceiling? -/
def signpostExceeded : Option Int → Int → Bool
  | none, _ => false
  | some c, v => decide (c < v)

/-- Modelled from the spec: `increment_state` of `singer_sdk.helpers._state`
is imported by core.py but absent from the sources.  Per spec section 4.4,
steps 3-5: extract the candidate value from the record; if a ceiling is
present and the candidate exceeds it, ignore the candidate for bookmark
purposes (state unchanged); otherwise compare against the partition's
progress-marker maximum, raising an ordering error when `is_sorted` and the
candidate is below the maximum, else storing the new maximum (with the key
name) in the transient marker.  A record lacking the key leaves the marker
unchanged. -/
def increment_state (st : BookmarkState) (rk : String) (signpost : Option Int)
    (latest_record : Record) (is_sorted : Bool) :
    Except IncrementError BookmarkState :=
  match rlookup rk latest_record with
  | none => .ok st
  | some v =>
    if signpostExceeded signpost v then .ok st
    else
      match st.progress_max with
      | none => .ok { st with progress_max := some (rk, v) }
      | some km =>
        if is_sorted ∧ v < km.2 then .error .invalidStreamSort
        else .ok { st with progress_max := some (rk, max km.2 v) }

/-- Modelled from the spec: `reset_state_progress_markers` of
`singer_sdk.helpers._state` (absent from the sources) clears the partition's
transient progress markers at the start of a pass (spec section 4.5). -/
def reset_state_progress_markers (st : BookmarkState) : BookmarkState :=
  { st with progress_max := none }

/-- Modelled from the spec: `finalize_state_progress_markers` of
`singer_sdk.helpers._state` (absent from the sources) promotes the
progress-marker maximum to the real bookmark at clean end-of-partition and
discards the marker (spec section 4.4, step 6). -/
def finalize_state_progress_markers (st : BookmarkState) : BookmarkState :=
  match st.progress_max with
  | none => st
  | some km =>
    { replication_key := some km.1, replication_key_value := some km.2,
      progress_max := none }

/-- The state tree, restricted to one stream: bookmark records keyed by
partition context, with `none` the stream-level (unpartitioned) entry. -/
abbrev StateTree := List (Option Part × BookmarkState)

/-- Lookup of a state entry by partition key. -/
def treeLookup : StateTree → Option Part → Option BookmarkState
  | [], _ => none
  | (k, bk) :: rest, key => if k = key then some bk else treeLookup rest key

/-- Modelled from the spec: `get_writeable_state_dict` of
`singer_sdk.helpers._state` (absent from the sources) returns the entry for
the stream or partition, creating a blank record on first access (spec
section 4.1). -/
def getStateEntry (tree : StateTree) (key : Option Part) : BookmarkState :=
  (treeLookup tree key).getD emptyBookmark

/-- Writing back a (possibly new) state entry under a partition key. -/
def setStateEntry : StateTree → Option Part → BookmarkState → StateTree
  | [], key, bk => [(key, bk)]
  | (k2, bk2) :: rest, key, bk =>
    if k2 = key then (key, bk) :: rest
    else (k2, bk2) :: setStateEntry rest key bk

/-- Modelled from the spec: `get_state_partitions_list` of
`singer_sdk.helpers._state` (absent from the sources) lists the partition
contexts already represented in state (spec section 4.1); `Stream.partitions`
(core.py lines 323-336) maps each to its context. -/
def get_state_partitions_list (tree : StateTree) : List Part :=
  tree.filterMap (fun e => e.1)

/-- `Stream.get_stream_or_partition_state`: a truthy partition selects the
partition entry, anything falsy the stream-level entry. -/
def stateKey (p : Option Part) : Option Part :=
  if partTruthy p then p else none

/-- `Stream._increment_stream_state` (core.py lines 340-367): skip falsy
records; for the `INCREMENTAL` / `LOG_BASED` methods require a replication
key (raising `ValueError` otherwise, before any state change) and delegate to
`increment_state` with the current signpost; any other method is a no-op.
`now` is the wall clock observed by the inner `get_replication_key_signpost`
call. -/
def _increment_stream_state (s : Stream) (now : Int) (st : BookmarkState)
    (latest_record : Record) : Except IncrementError BookmarkState :=
  if latest_record.isEmpty then .ok st
  else if replication_method s = REPLICATION_INCREMENTAL ∨
      replication_method s = REPLICATION_LOG_BASED then
    match replication_key s with
    | none =>
      .error (.valueError ("Could not detect replication key for '" ++ s.name
        ++ "' stream(replication method=" ++ replication_method s ++ ")"))
    | some rk =>
      increment_state st rk (get_replication_key_signpost s now)
        latest_record s.is_sorted
  else .ok st

/-- A protocol message as emitted by `_sync_records`: a RECORD message
carrying the row, or a STATE message. -/
inductive Msg where
  | record : Record → Msg
  | state : Msg
deriving DecidableEq, Repr

/-- Is this a RECORD message? -/
def isRecordMsg : Msg → Bool
  | .record _ => true
  | .state => false

/-- Is this a STATE message? -/
def isStateMsg : Msg → Bool
  | .record _ => false
  | .state => true

/-- Errors escaping `_sync_records`: the max-record-limit signal, an ordering
violation (carrying the logged 1-based row ordinal and the partition context
of the log message), or an uncaught `ValueError`. -/
inductive SyncError where
  | maxRecordsLimit : SyncError
  | invalidStreamSort : Nat → Option Part → SyncError
  | valueError : String → SyncError
deriving DecidableEq, Repr

/-- Result of the per-partition record loop of `_sync_records`. -/
structure LoopResult where
  messages : List Msg
  rows_sent : Nat
  bookmark : BookmarkState
  err : Option SyncError
deriving DecidableEq, Repr

/-- The max-record-limit guard of `_sync_records` (core.py lines 420-423). -/
def maxRecordsLimitHit (s : Stream) (rows_sent : Nat) : Bool :=
  match s._MAX_RECORDS_LIMIT with
  | none => false
  | some lim => decide (rows_sent ≥ lim)

/-- The periodic-flush guard of `_sync_records` (core.py line 429):
`rows_sent` truthy and `(rows_sent - 1) % STATE_MSG_FREQUENCY == 0`. -/
def flushDue (s : Stream) (rows_sent : Nat) : Bool :=
  decide (rows_sent ≠ 0) && decide ((rows_sent - 1) % s.STATE_MSG_FREQUENCY = 0)

/-- The intermediate STATE message emitted when the flush guard fires, else
nothing. -/
def flushMsgs (s : Stream) (rows_sent : Nat) : List Msg :=
  if flushDue s rows_sent then [.state] else []

/-- The inner record loop of `_sync_records` (core.py lines 419-441) for one
partition: check the record cap (raising `MaxRecordsLimitException`), emit an
intermediate STATE message when the flush guard fires, emit the RECORD
message, then update bookmark state — an `InvalidStreamSortException` is
logged with ordinal `rows_sent + 1` and the partition context and re-raised
(both recorded in the error value), a `ValueError` propagates uncaught. -/
def syncRecordsLoop (s : Stream) (clock : Nat → Int) (part : Option Part)
    (bk : BookmarkState) (rows_sent : Nat) :
    List Record → LoopResult
  | [] => { messages := [], rows_sent := rows_sent, bookmark := bk, err := none }
  | r :: rest =>
    if maxRecordsLimitHit s rows_sent then
      { messages := [], rows_sent := rows_sent, bookmark := bk,
        err := some .maxRecordsLimit }
    else
      match _increment_stream_state s (clock rows_sent) bk r with
      | .error .invalidStreamSort =>
        { messages := flushMsgs s rows_sent ++ [.record r],
          rows_sent := rows_sent, bookmark := bk,
          err := some (.invalidStreamSort (rows_sent + 1) part) }
      | .error (.valueError m) =>
        { messages := flushMsgs s rows_sent ++ [.record r],
          rows_sent := rows_sent, bookmark := bk,
          err := some (.valueError m) }
      | .ok bk2 =>
        let res := syncRecordsLoop s clock part bk2 (rows_sent + 1) rest
        { res with messages := flushMsgs s rows_sent ++ .record r :: res.messages }

/-- Result of `_sync_records` as a whole: emitted messages, final global row
count, the final state tree, and the escaped exception if any. -/
structure SyncOutcome where
  messages : List Msg
  rows_sent : Nat
  tree : StateTree
  err : Option SyncError
deriving DecidableEq, Repr

/-- The partition loop of `_sync_records` (core.py lines 416-442): for each
partition, read its state entry (creating a blank one), reset its progress
markers, run the record loop, and on clean exhaustion finalize the markers;
any error aborts the remaining partitions.  `rows_sent` is global across
partitions. -/
def syncPartitionsLoop (s : Stream) (clock : Nat → Int)
    (get_records : Option Part → List Record) (rows_sent : Nat)
    (tree : StateTree) : List (Option Part) → SyncOutcome
  | [] => { messages := [], rows_sent := rows_sent, tree := tree, err := none }
  | p :: rest =>
    let key := stateKey p
    let bk0 := reset_state_progress_markers (getStateEntry tree key)
    let res := syncRecordsLoop s clock p bk0 rows_sent (get_records p)
    match res.err with
    | some e =>
      { messages := res.messages, rows_sent := res.rows_sent,
        tree := setStateEntry tree key res.bookmark, err := some e }
    | none =>
      let tree2 := setStateEntry tree key
        (finalize_state_progress_markers res.bookmark)
      let rest_res := syncPartitionsLoop s clock get_records res.rows_sent
        tree2 rest
      { rest_res with messages := res.messages ++ rest_res.messages }

/-- The partition list of `_sync_records` (core.py lines 411-415):
`[partition]` when the argument is truthy, else the partitions already known
in state, else the single implicit partition `None`. -/
def sync_partitions_arg (partition : Option Part) (tree : StateTree) :
    List (Option Part) :=
  if partTruthy partition then [partition]
  else
    let ps := get_state_partitions_list tree
    if ps.isEmpty then [none] else ps.map some

/-- `Stream._sync_records` (core.py lines 407-445): run the partition loop;
after a clean pass over all partitions one final STATE message is emitted —
an escaped exception skips it. -/
def _sync_records (s : Stream) (clock : Nat → Int)
    (get_records : Option Part → List Record) (partition : Option Part)
    (tree : StateTree) : SyncOutcome :=
  let res := syncPartitionsLoop s clock get_records 0 tree
    (sync_partitions_arg partition tree)
  match res.err with
  | none => { res with messages := res.messages ++ [.state] }
  | some _ => res

/-- Number of RECORD messages in a trace. -/
def countRecords (ms : List Msg) : Nat := (ms.filter isRecordMsg).length

/-- Number of STATE messages in a trace. -/
def countStates (ms : List Msg) : Nat := (ms.filter isStateMsg).length

/-- Decidable bound: the transient progress-marker value, if any, is at most
`c`. -/
def markerLe (bk : BookmarkState) (c : Int) : Bool :=
  match bk.progress_max with
  | none => true
  | some km => decide (km.2 ≤ c)

/-- Decidable bound: the durable bookmark value of the given partition entry,
if any, is at most `c`. -/
def bookmark_value_le (tree : StateTree) (key : Option Part) (c : Int) : Bool :=
  match treeLookup tree key with
  | none => true
  | some bk =>
    match bk.replication_key_value with
    | none => true
    | some v => decide (v ≤ c)

/-! Concrete fixtures used by witnesses and counterexamples. -/

/-- A stream with a timestamp-typed replication key `updated_at` and no
forced replication method. -/
def tsStream : Stream :=
  { name := "orders", _replication_key := some "updated_at",
    _primary_keys := some ["id"], forced_replication_method := none,
    is_sorted := false, timestamp_fields := ["updated_at"],
    STATE_MSG_FREQUENCY := 10000, _MAX_RECORDS_LIMIT := none }

/-- A stream with a replication key and a forced `LOG_BASED` method. -/
def forcedLogStream : Stream :=
  { name := "logs", _replication_key := some "lsn",
    _primary_keys := none, forced_replication_method := some "LOG_BASED",
    is_sorted := false, timestamp_fields := [],
    STATE_MSG_FREQUENCY := 10000, _MAX_RECORDS_LIMIT := none }

/-- A stream with neither replication key nor forced method (full table). -/
def ftStream : Stream :=
  { name := "customers", _replication_key := none,
    _primary_keys := none, forced_replication_method := none,
    is_sorted := false, timestamp_fields := [],
    STATE_MSG_FREQUENCY := 10000, _MAX_RECORDS_LIMIT := none }

/-- A stream whose forced method is `INCREMENTAL` but which has no
replication key configured. -/
def forcedIncStream : Stream :=
  { name := "books", _replication_key := none,
    _primary_keys := none, forced_replication_method := some "INCREMENTAL",
    is_sorted := false, timestamp_fields := [],
    STATE_MSG_FREQUENCY := 10000, _MAX_RECORDS_LIMIT := none }

/-- A catalog whose entry for `orders` carries no primary keys, no
replication key and no replication method. -/
def bareCatalog : CatalogDict :=
  [("orders", { key_properties := none, replication_key := none,
                replication_method := none })]

/-- A catalog whose entry for `orders` overrides all three settings. -/
def fullCatalog : CatalogDict :=
  [("orders", { key_properties := some ["pk"],
                replication_key := some "modified",
                replication_method := some "LOG_BASED" })]

/-- A raw state whose stored bookmark was recorded under the stream's
current replication key. -/
def rawStateMatching : RawStreamState :=
  { replication_key := some "updated_at",
    replication_key_value := some "2021-01-01T00:00:00Z" }

/-- A raw state whose stored bookmark was recorded under a different
replication key. -/
def rawStateOtherKey : RawStreamState :=
  { replication_key := some "legacy_key",
    replication_key_value := some "2021-01-01T00:00:00Z" }

/-- A stream with state-message frequency 3 and no replication key. -/
def freq3Stream : Stream :=
  { name := "t", _replication_key := none, _primary_keys := none,
    forced_replication_method := none, is_sorted := false,
    timestamp_fields := [], STATE_MSG_FREQUENCY := 3,
    _MAX_RECORDS_LIMIT := none }

/-- Seven records for the periodic-flush scenario. -/
def recs7 : List Record :=
  [[("v", 1)], [("v", 2)], [("v", 3)], [("v", 4)], [("v", 5)], [("v", 6)],
   [("v", 7)]]

/-- A stream with a max-records limit of 1. -/
def cappedStream : Stream :=
  { name := "capped", _replication_key := none, _primary_keys := none,
    forced_replication_method := none, is_sorted := false,
    timestamp_fields := [], STATE_MSG_FREQUENCY := 10000,
    _MAX_RECORDS_LIMIT := some 1 }

/-- Two records, one more than `cappedStream`'s limit. -/
def recs2 : List Record := [[("v", 1)], [("v", 2)]]

/-- A sorted incremental stream on the non-timestamp key `x`. -/
def sortedStream : Stream :=
  { name := "sorted_stream", _replication_key := some "x",
    _primary_keys := none, forced_replication_method := none,
    is_sorted := true, timestamp_fields := [],
    STATE_MSG_FREQUENCY := 10000, _MAX_RECORDS_LIMIT := none }

/-- The partition context used in the sorted-stream scenario. -/
def pA : Option Part := some [("id", "a")]

/-- Replication-key values 1, 2, 3 — in order. -/
def sortedRecsOk : List Record := [[("x", 1)], [("x", 2)], [("x", 3)]]

/-- Replication-key values 1, 3, 2 — out of order at the third record. -/
def sortedRecsBad : List Record := [[("x", 1)], [("x", 3)], [("x", 2)]]

/-- Timestamp records for the signpost-capping scenario: the middle value 11
exceeds the ceiling 10. -/
def recsC2 : List Record :=
  [[("updated_at", 5)], [("updated_at", 11)], [("updated_at", 7)]]

/-- One hundred records for the full-table scenario. -/
def recs100 : List Record := List.replicate 100 [("n", 0)]

/-- A trace is empty or its last message is a RECORD message. -/
def endsWithRecord (ms : List Msg) : Prop :=
  ms = [] ∨ ∃ r, ms.getLast? = some (Msg.record r)

/-! Theorems settling the claims. -/

/-- Claim C1, code-bug evidence: the body of `get_replication_key_signpost`
returns the wall clock of the current call, so two calls of one pass made at
wall-clock times 5 and 7 for the same (stream, partition) return different
signposts — the value is recomputed, not frozen as the claim (and the
function's own docstring, core.py lines 154-157) state. -/
theorem c1_signpost_recomputed_each_call :
    get_replication_key_signpost tsStream 5 = some 5 ∧
    get_replication_key_signpost tsStream 7 = some 7 ∧
    get_replication_key_signpost tsStream 5 ≠
      get_replication_key_signpost tsStream 7 := by
  decide

/-- Claim C9: `replication_method` is the forced method when a truthy one is
set; otherwise `INCREMENTAL` when a replication key is set; otherwise
`FULL_TABLE`. -/
theorem c9_replication_method_derivation (s : Stream) (m : String) :
    (s.forced_replication_method = some m → m ≠ "" →
      replication_method s = m) ∧
    (strTruthy s.forced_replication_method = false →
      (replication_key s).isSome = true →
      replication_method s = REPLICATION_INCREMENTAL) ∧
    (strTruthy s.forced_replication_method = false →
      replication_key s = none →
      replication_method s = REPLICATION_FULL_TABLE) := by
  refine ⟨?_, ?_, ?_⟩
  · intro hf hm
    simp [replication_method, strTruthy, hf, hm]
  · intro hf hk
    simp [replication_method, hf, hk]
  · intro hf hk
    simp [replication_method, hf, hk]

/-- Claim C9 witness: the three derivation branches at concrete streams. -/
theorem c9_witness :
    replication_method forcedLogStream = "LOG_BASED" ∧
    replication_method tsStream = REPLICATION_INCREMENTAL ∧
    replication_method ftStream = REPLICATION_FULL_TABLE :=
  ⟨(c9_replication_method_derivation forcedLogStream "LOG_BASED").1 rfl
      (by decide),
   (c9_replication_method_derivation tsStream "").2.1 (by decide) (by decide),
   (c9_replication_method_derivation ftStream "").2.2 (by decide) rfl⟩

/-- Claim C5, counterexample: `tsStream` configures replication key
`updated_at` and primary keys `[id]`; `bareCatalog` has an entry for the
stream that lacks both.  After `apply_catalog` the stream's own configured
values are NOT left in effect — both are cleared. -/
theorem c5_counterexample :
    replication_key tsStream = some "updated_at" ∧
    primary_keys tsStream = some ["id"] ∧
    replication_key (apply_catalog tsStream bareCatalog) = none ∧
    primary_keys (apply_catalog tsStream bareCatalog) = none := by
  decide

/-- Claim C5, amended: when a catalog entry for the stream exists,
`apply_catalog` overwrites the stream's primary keys and replication key with
the entry's values unconditionally (clearing them when the entry lacks them);
only the forced replication method is overridden conditionally, when the
entry's method is truthy. -/
theorem c5_apply_catalog_overwrites (s : Stream) (cat : CatalogDict)
    (e : CatalogEntry) (h : catalog_get_stream cat s.name = some e) :
    (apply_catalog s cat)._primary_keys = e.key_properties ∧
    (apply_catalog s cat)._replication_key = e.replication_key ∧
    (apply_catalog s cat).forced_replication_method =
      (if strTruthy e.replication_method then e.replication_method
       else s.forced_replication_method) := by
  unfold apply_catalog
  rw [h]
  by_cases hm : strTruthy e.replication_method = true
  · simp [hm]
  · simp [hm]

/-- Claim C5 witness: applying `fullCatalog` to `tsStream` installs the
entry's primary keys, replication key and forced method. -/
theorem c5_witness :
    (apply_catalog tsStream fullCatalog)._primary_keys = some ["pk"] ∧
    (apply_catalog tsStream fullCatalog)._replication_key = some "modified" ∧
    (apply_catalog tsStream fullCatalog).forced_replication_method =
      some "LOG_BASED" := by
  have h := c5_apply_catalog_overwrites tsStream fullCatalog
    ⟨some ["pk"], some "modified", some "LOG_BASED"⟩ rfl
  refine ⟨h.1, h.2.1, ?_⟩
  rw [h.2.2]
  decide

/-- Claim C8: a stream whose replication method is `INCREMENTAL` or
`LOG_BASED` but which has no replication key makes
`_increment_stream_state` raise `ValueError` on any non-empty record; the
error return carries no state change. -/
theorem c8_missing_replication_key_raises (s : Stream) (now : Int)
    (bk : BookmarkState) (r : Record)
    (hm : replication_method s = REPLICATION_INCREMENTAL ∨
      replication_method s = REPLICATION_LOG_BASED)
    (hk : replication_key s = none) (hr : r.isEmpty = false) :
    _increment_stream_state s now bk r =
      .error (.valueError ("Could not detect replication key for '" ++ s.name
        ++ "' stream(replication method=" ++ replication_method s ++ ")")) := by
  unfold _increment_stream_state
  rw [hr, hk]
  simp [hm]

/-- Claim C8 witness: `forcedIncStream` (forced `INCREMENTAL`, no key) raises
`ValueError` on the non-empty record `[(a, 1)]`. -/
theorem c8_witness :
    _increment_stream_state forcedIncStream 0 emptyBookmark [("a", 1)] =
      .error (.valueError ("Could not detect replication key for '"
        ++ forcedIncStream.name ++ "' stream(replication method="
        ++ replication_method forcedIncStream ++ ")")) :=
  c8_missing_replication_key_raises forcedIncStream 0 emptyBookmark
    [("a", 1)] (Or.inl rfl) rfl rfl

/-- Claim C10: `get_starting_timestamp` returns the parsed stored bookmark
exactly when the replication key is timestamp-typed, the stored value is
truthy, and the stored key name equals the stream's current replication key
(`bookmark_usable`); in every other case it falls back to the parsed
`start_date` config value (hence `none` when that is absent), so a bookmark
recorded under a different replication key is ignored on resume. -/
theorem c10_get_starting_timestamp_cases (s : Stream) (st : RawStreamState)
    (sd : Option String) :
    (bookmark_usable s st = true →
      get_starting_timestamp s st sd =
        st.replication_key_value.map pendulum_parse) ∧
    (bookmark_usable s st = false →
      get_starting_timestamp s st sd = sd.map pendulum_parse) := by
  constructor
  · intro h
    simp only [bookmark_usable, Bool.and_eq_true, decide_eq_true_eq] at h
    obtain ⟨⟨hts, hv⟩, hkey⟩ := h
    cases hrv : st.replication_key_value with
    | none => rw [hrv] at hv; simp at hv
    | some v =>
      rw [hrv] at hv
      have hvne : v ≠ "" := by simpa using hv
      simp [get_starting_timestamp, hts, hrv, hvne, hkey]
  · intro h
    by_cases hts : is_timestamp_replication_key s = true
    · cases hrv : st.replication_key_value with
      | none => simp [get_starting_timestamp, hts, hrv]
      | some v =>
        simp only [bookmark_usable, hts, hrv, Bool.true_and] at h
        have h2 : ¬((!(v == "")) = true ∧
            decide (replication_key s = st.replication_key) = true) := by
          intro hc
          simp [hc.1, hc.2] at h
        have hneg : ¬(v ≠ "" ∧ replication_key s = st.replication_key) := by
          rintro ⟨hv, hkey⟩
          exact h2 ⟨by simpa using hv, decide_eq_true hkey⟩
        simp only [get_starting_timestamp, hts, if_true, hrv]
        rw [if_neg hneg]
    · simp [get_starting_timestamp, hts]

/-- Claim C3, counterexample: with frequency 3 and 7 records in one
partition, the first intermediate state message is emitted after exactly ONE
record message (immediately before writing record 2), not at record index 3
as the claim states. -/
theorem c3_counterexample :
    ((_sync_records freq3Stream (fun _ => 0) (fun _ => recs7) none
        []).messages.takeWhile isRecordMsg).length = 1 ∧
    ¬(((_sync_records freq3Stream (fun _ => 0) (fun _ => recs7) none
        []).messages.takeWhile isRecordMsg).length = 3) := by
  decide

/-- Claim C3, amended: with state-message frequency 3 and a source yielding 7
records in one partition, `_sync_records` emits exactly 2 intermediate state
messages before the final one, flushed immediately before writing records 2
and 5 (i.e. when `rows_sent` is 1 and 4, per the rule: `rows_sent` nonzero
and `(rows_sent - 1) % frequency = 0`, so the very first record never
triggers a flush), plus exactly one final state message after the last
record. -/
theorem c3_flush_cadence :
    (_sync_records freq3Stream (fun _ => 0) (fun _ => recs7) none
        []).messages =
      [.record [("v", 1)], .state, .record [("v", 2)], .record [("v", 3)],
       .record [("v", 4)], .state, .record [("v", 5)], .record [("v", 6)],
       .record [("v", 7)], .state] ∧
    countStates (_sync_records freq3Stream (fun _ => 0) (fun _ => recs7) none
        []).messages = 3 ∧
    countRecords (_sync_records freq3Stream (fun _ => 0) (fun _ => recs7) none
        []).messages = 7 ∧
    (_sync_records freq3Stream (fun _ => 0) (fun _ => recs7) none []).err =
      none := by
  decide

/-- Claim C4, counterexample: with a record cap of 1 and two available
records, `_sync_records` raises the max-record-limit exception and emits NO
state message at all — the final state-message emission of a clean pass is
skipped, contrary to the claim. -/
theorem c4_counterexample :
    (_sync_records cappedStream (fun _ => 0) (fun _ => recs2) none []).err =
      some .maxRecordsLimit ∧
    countStates (_sync_records cappedStream (fun _ => 0) (fun _ => recs2) none
        []).messages = 0 := by
  decide

/-- Claim C6: for the sorted stream, values [1,2,3] sync cleanly and the
partition's bookmark is promoted to 3; values [1,3,2] abort with the ordering
error carrying the 1-based ordinal 3 and the partition context (the data that
core.py logs before re-raising), the error escapes `_sync_records` (the sync
aborts, no final state message), and the offending third record was still
emitted before the error. -/
theorem c6_sorted_stream_ordering :
    (_sync_records sortedStream (fun _ => 0) (fun _ => sortedRecsOk) pA
        []).err = none ∧
    treeLookup (_sync_records sortedStream (fun _ => 0) (fun _ => sortedRecsOk)
        pA []).tree pA =
      some { replication_key := some "x", replication_key_value := some 3,
             progress_max := none } ∧
    (_sync_records sortedStream (fun _ => 0) (fun _ => sortedRecsBad) pA
        []).err = some (.invalidStreamSort 3 pA) ∧
    countRecords (_sync_records sortedStream (fun _ => 0)
        (fun _ => sortedRecsBad) pA []).messages = 3 ∧
    countStates (_sync_records sortedStream (fun _ => 0)
        (fun _ => sortedRecsBad) pA []).messages = 1 := by
  decide

/-- RECORD-message counts add over concatenation. -/
theorem countRecords_append (a b : List Msg) :
    countRecords (a ++ b) = countRecords a + countRecords b := by
  simp [countRecords, List.filter_append]

/-- A flush prefix contributes no RECORD message, the record itself one. -/
theorem countRecords_flush_cons (s : Stream) (n : Nat) (r : Record)
    (ms : List Msg) :
    countRecords (flushMsgs s n ++ .record r :: ms) = countRecords ms + 1 := by
  by_cases hf : flushDue s n = true <;>
    simp [flushMsgs, hf, countRecords, List.filter, isRecordMsg,
      Nat.add_comm]

/-- Every iteration of the record loop appends its RECORD message last, so
the loop's trace is empty or ends with a RECORD message — never with a STATE
message. -/
theorem syncRecordsLoop_endsWithRecord (s : Stream) (clock : Nat → Int)
    (part : Option Part) :
    ∀ (recs : List Record) (bk : BookmarkState) (n : Nat),
    endsWithRecord (syncRecordsLoop s clock part bk n recs).messages := by
  intro recs
  induction recs with
  | nil => intro bk n; exact Or.inl rfl
  | cons r rest ih =>
    intro bk n
    rw [syncRecordsLoop]
    by_cases hl : maxRecordsLimitHit s n = true
    · rw [if_pos hl]; exact Or.inl rfl
    · rw [if_neg hl]
      cases hinc : _increment_stream_state s (clock n) bk r with
      | error e =>
        cases e with
        | invalidStreamSort =>
          exact Or.inr ⟨r, List.getLast?_concat _⟩
        | valueError m =>
          exact Or.inr ⟨r, List.getLast?_concat _⟩
      | ok bk2 =>
        rcases ih bk2 (n + 1) with hnil | ⟨rr, hlast⟩
        · dsimp only
          rw [hnil]
          exact Or.inr ⟨r, List.getLast?_concat _⟩
        · refine Or.inr ⟨rr, ?_⟩
          dsimp only
          rw [List.getLast?_append_cons]
          cases hms : (syncRecordsLoop s clock part bk2 (n + 1)
              rest).messages with
          | nil => rw [hms] at hlast; cases hlast
          | cons m0 ms' =>
            rw [hms] at hlast
            rw [List.getLast?_cons_cons]
            exact hlast

/-- `endsWithRecord` is preserved by concatenation. -/
theorem endsWithRecord_append (a b : List Msg) (ha : endsWithRecord a)
    (hb : endsWithRecord b) : endsWithRecord (a ++ b) := by
  rcases hb with hnil | ⟨r, hlast⟩
  · rw [hnil, List.append_nil]; exact ha
  · refine Or.inr ⟨r, ?_⟩
    have hne : b ≠ [] := by intro h2; rw [h2] at hlast; cases hlast
    rw [List.getLast?_append_of_ne_nil _ hne]
    exact hlast

/-- The partition loop inherits the trace shape: empty or ending with a
RECORD message. -/
theorem syncPartitionsLoop_endsWithRecord (s : Stream) (clock : Nat → Int)
    (gr : Option Part → List Record) :
    ∀ (parts : List (Option Part)) (n : Nat) (tree : StateTree),
    endsWithRecord (syncPartitionsLoop s clock gr n tree parts).messages := by
  intro parts
  induction parts with
  | nil => intro n tree; exact Or.inl rfl
  | cons p rest ih =>
    intro n tree
    rw [syncPartitionsLoop]
    cases hres : (syncRecordsLoop s clock p
        (reset_state_progress_markers (getStateEntry tree (stateKey p))) n
        (gr p)).err with
    | some e =>
      exact syncRecordsLoop_endsWithRecord s clock p (gr p) _ n
    | none =>
      dsimp only
      exact endsWithRecord_append _ _
        (syncRecordsLoop_endsWithRecord s clock p (gr p) _ n) (ih _ _)

/-- Claim C4, amended: when the record cap is hit, the max-record-limit
exception propagates out of `_sync_records` and the final state-message
emission is skipped: the emitted trace is empty or ends with the last RECORD
message written before the abort, never with a STATE message. -/
theorem c4_limit_skips_final_state (s : Stream) (clock : Nat → Int)
    (get_records : Option Part → List Record) (partition : Option Part)
    (tree : StateTree)
    (h : (_sync_records s clock get_records partition tree).err =
      some .maxRecordsLimit) :
    (_sync_records s clock get_records partition tree).messages.getLast? ≠
      some .state := by
  have hgen := syncPartitionsLoop_endsWithRecord s clock get_records
    (sync_partitions_arg partition tree) 0 tree
  unfold _sync_records at h ⊢
  dsimp only at h ⊢
  cases hres : (syncPartitionsLoop s clock get_records 0 tree
      (sync_partitions_arg partition tree)).err with
  | none =>
    rw [hres] at h
    simp at h
  | some e =>
    dsimp only
    rcases hgen with hnil | ⟨rr, hlast⟩
    · rw [hnil]
      simp
    · rw [hlast]
      simp

/-- Claim C4 witness for the amended theorem: the capped run hits the limit
and its trace does not end with a STATE message. -/
theorem c4_limit_skips_final_state_witness :
    (_sync_records cappedStream (fun _ => 0) (fun _ => recs2) none []).err =
      some .maxRecordsLimit ∧
    (_sync_records cappedStream (fun _ => 0) (fun _ => recs2) none
        []).messages.getLast? ≠ some .state :=
  ⟨by decide,
   c4_limit_skips_final_state cappedStream (fun _ => 0) (fun _ => recs2) none
     [] (by decide)⟩

/-- For a `FULL_TABLE` stream, `_increment_stream_state` is a no-op on any
record. -/
theorem _increment_full_table (s : Stream) (now : Int) (bk : BookmarkState)
    (r : Record) (hm : replication_method s = REPLICATION_FULL_TABLE) :
    _increment_stream_state s now bk r = .ok bk := by
  unfold _increment_stream_state
  by_cases hr : r.isEmpty = true
  · rw [if_pos hr]
  · rw [if_neg hr, hm, if_neg (by decide)]

/-- For a `FULL_TABLE` stream with no record cap, the record loop completes
without error, leaves the bookmark untouched, and emits one RECORD message
per input record. -/
theorem syncRecordsLoop_full_table (s : Stream) (clock : Nat → Int)
    (part : Option Part)
    (hm : replication_method s = REPLICATION_FULL_TABLE)
    (hlim : s._MAX_RECORDS_LIMIT = none) :
    ∀ (recs : List Record) (bk : BookmarkState) (n : Nat),
    (syncRecordsLoop s clock part bk n recs).err = none ∧
    (syncRecordsLoop s clock part bk n recs).bookmark = bk ∧
    countRecords (syncRecordsLoop s clock part bk n recs).messages =
      recs.length := by
  intro recs
  induction recs with
  | nil => intro bk n; exact ⟨rfl, rfl, rfl⟩
  | cons r rest ih =>
    intro bk n
    have hl : maxRecordsLimitHit s n = false := by
      simp [maxRecordsLimitHit, hlim]
    rw [syncRecordsLoop]
    rw [if_neg (by simp [hl])]
    rw [_increment_full_table s (clock n) bk r hm]
    dsimp only
    obtain ⟨h1, h2, h3⟩ := ih bk (n + 1)
    refine ⟨h1, h2, ?_⟩
    rw [countRecords_flush_cons, h3]
    simp

/-- Claim C7: for a stream whose replication method is `FULL_TABLE` (no
record cap, single implicit partition, fresh state), `_sync_records`
completes, emits one RECORD message per input record, and the stream's state
entry remains the blank bookmark: no replication key and no value recorded. -/
theorem c7_full_table_no_bookmark (s : Stream) (clock : Nat → Int)
    (rs : List Record)
    (hm : replication_method s = REPLICATION_FULL_TABLE)
    (hlim : s._MAX_RECORDS_LIMIT = none) :
    (_sync_records s clock (fun _ => rs) none []).err = none ∧
    countRecords (_sync_records s clock (fun _ => rs) none []).messages =
      rs.length ∧
    treeLookup (_sync_records s clock (fun _ => rs) none []).tree none =
      some emptyBookmark := by
  have hparts : sync_partitions_arg (none : Option Part) ([] : StateTree) =
    [none] := rfl
  obtain ⟨h1, h2, h3⟩ := syncRecordsLoop_full_table s clock none hm hlim rs
    (reset_state_progress_markers
      (getStateEntry ([] : StateTree) (stateKey none))) 0
  unfold _sync_records
  rw [hparts]
  rw [syncPartitionsLoop]
  dsimp only
  rw [h1]
  dsimp only
  rw [syncPartitionsLoop]
  dsimp only
  refine ⟨rfl, ?_, ?_⟩
  · rw [List.append_nil, countRecords_append, h3]
    simp [countRecords, isRecordMsg]
  · rw [h2]
    rfl

/-- Claim C7 witness: the full-table stream `ftStream` with 100 records ends
with a blank bookmark while all 100 records were emitted. -/
theorem c7_full_table_no_bookmark_witness :
    (_sync_records ftStream (fun _ => 0) (fun _ => recs100) none []).err =
      none ∧
    countRecords (_sync_records ftStream (fun _ => 0) (fun _ => recs100) none
      []).messages = 100 ∧
    treeLookup (_sync_records ftStream (fun _ => 0) (fun _ => recs100) none
      []).tree none = some emptyBookmark := by
  have h := c7_full_table_no_bookmark ftStream (fun _ => 0) recs100 rfl rfl
  exact ⟨h.1, h.2.1, h.2.2⟩

/-- A timestamp-typed replication key exists as a key. -/
theorem replication_key_some_of_ts (s : Stream)
    (h : is_timestamp_replication_key s = true) :
    ∃ k, replication_key s = some k := by
  unfold is_timestamp_replication_key at h
  cases hk : replication_key s with
  | none => rw [hk] at h; simp at h
  | some k => exact ⟨k, rfl⟩

/-- With a constant wall clock `c` (hence signpost ceiling `c`), one
unsorted increment step preserves the marker bound `≤ c` and never touches
the durable bookmark value, and it cannot fail. -/
theorem _increment_capped (s : Stream) (c : Int) (bk : BookmarkState)
    (r : Record) (hsort : s.is_sorted = false)
    (hts : is_timestamp_replication_key s = true)
    (hmk : markerLe bk c = true) :
    ∃ bk2, _increment_stream_state s c bk r = .ok bk2 ∧
      markerLe bk2 c = true ∧
      bk2.replication_key_value = bk.replication_key_value := by
  obtain ⟨rk, hrk⟩ := replication_key_some_of_ts s hts
  unfold _increment_stream_state
  by_cases hre : r.isEmpty = true
  · rw [if_pos hre]; exact ⟨bk, rfl, hmk, rfl⟩
  · rw [if_neg hre]
    by_cases hmm : (replication_method s = REPLICATION_INCREMENTAL ∨
        replication_method s = REPLICATION_LOG_BASED)
    · rw [if_pos hmm, hrk]
      dsimp only
      have hsp : get_replication_key_signpost s c = some c := by
        simp [get_replication_key_signpost, hts]
      rw [hsp, hsort]
      unfold increment_state
      cases hlk : rlookup rk r with
      | none => exact ⟨bk, rfl, hmk, rfl⟩
      | some v =>
        dsimp only
        by_cases hex : signpostExceeded (some c) v = true
        · rw [if_pos hex]; exact ⟨bk, rfl, hmk, rfl⟩
        · rw [if_neg hex]
          have hv : v ≤ c := by
            simp [signpostExceeded] at hex
            exact hex
          cases hpm : bk.progress_max with
          | none =>
            dsimp only
            refine ⟨_, rfl, ?_, rfl⟩
            simp [markerLe, hv]
          | some km =>
            dsimp only
            rw [if_neg (by simp)]
            refine ⟨_, rfl, ?_, rfl⟩
            have hkm : km.2 ≤ c := by
              simpa [markerLe, hpm] using hmk
            simp [markerLe, max_le hkm hv]
    · rw [if_neg hmm]; exact ⟨bk, rfl, hmk, rfl⟩

/-- With a constant clock `c`, an unsorted timestamp-keyed uncapped record
loop completes, emits every record, keeps the marker at or below `c`, and
never changes the durable bookmark value. -/
theorem syncRecordsLoop_capped (s : Stream) (c : Int) (part : Option Part)
    (hsort : s.is_sorted = false)
    (hts : is_timestamp_replication_key s = true)
    (hlim : s._MAX_RECORDS_LIMIT = none) :
    ∀ (recs : List Record) (bk : BookmarkState) (n : Nat),
    markerLe bk c = true →
    (syncRecordsLoop s (fun _ => c) part bk n recs).err = none ∧
    countRecords (syncRecordsLoop s (fun _ => c) part bk n recs).messages =
      recs.length ∧
    markerLe (syncRecordsLoop s (fun _ => c) part bk n recs).bookmark c =
      true ∧
    (syncRecordsLoop s (fun _ => c) part bk n
      recs).bookmark.replication_key_value = bk.replication_key_value := by
  intro recs
  induction recs with
  | nil => intro bk n hmk; exact ⟨rfl, rfl, hmk, rfl⟩
  | cons r rest ih =>
    intro bk n hmk
    obtain ⟨bk2, hinc, hmk2, hval2⟩ := _increment_capped s c bk r hsort hts
      hmk
    have hl : maxRecordsLimitHit s n = false := by
      simp [maxRecordsLimitHit, hlim]
    rw [syncRecordsLoop]
    rw [if_neg (by simp [hl])]
    dsimp only
    rw [hinc]
    dsimp only
    obtain ⟨h1, h2, h3, h4⟩ := ih bk2 (n + 1) hmk2
    refine ⟨h1, ?_, h3, by rw [h4, hval2]⟩
    rw [countRecords_flush_cons, h2]
    simp

/-- Claim C2: a record whose replication-key value exceeds the partition's
signpost ceiling is ignored for bookmark purposes (`increment_state` returns
the state unchanged), while the sync run still emits every record as a
RECORD message, completes, and ends with a durable bookmark value no greater
than the ceiling `c`. -/
theorem c2_signpost_capping (s : Stream) (c : Int) (rs : List Record)
    (st : BookmarkState) (rk : String) (r : Record) (v : Int) (b : Bool)
    (hsort : s.is_sorted = false)
    (hlim : s._MAX_RECORDS_LIMIT = none)
    (hts : is_timestamp_replication_key s = true)
    (hlk : rlookup rk r = some v) (hc : c < v) :
    increment_state st rk (some c) r b = .ok st ∧
    (_sync_records s (fun _ => c) (fun _ => rs) none []).err = none ∧
    countRecords (_sync_records s (fun _ => c) (fun _ => rs) none
      []).messages = rs.length ∧
    bookmark_value_le (_sync_records s (fun _ => c) (fun _ => rs) none
      []).tree none c = true := by
  constructor
  · unfold increment_state
    rw [hlk]
    dsimp only
    rw [if_pos (by simp [signpostExceeded, hc])]
  · have hparts : sync_partitions_arg (none : Option Part) ([] : StateTree) =
      [none] := rfl
    obtain ⟨h1, h2, h3, h4⟩ := syncRecordsLoop_capped s c none hsort hts hlim
      rs (reset_state_progress_markers
        (getStateEntry ([] : StateTree) (stateKey none))) 0 rfl
    unfold _sync_records
    rw [hparts]
    rw [syncPartitionsLoop]
    dsimp only
    rw [h1]
    dsimp only
    rw [syncPartitionsLoop]
    dsimp only
    refine ⟨rfl, ?_, ?_⟩
    · rw [List.append_nil, countRecords_append, h2]
      simp [countRecords, isRecordMsg]
    · unfold bookmark_value_le
      have hkey : treeLookup
          (setStateEntry [] (stateKey none) (finalize_state_progress_markers
            (syncRecordsLoop s (fun _ => c) none
              (reset_state_progress_markers
                (getStateEntry ([] : StateTree) (stateKey none))) 0
              rs).bookmark)) none =
          some (finalize_state_progress_markers
            (syncRecordsLoop s (fun _ => c) none
              (reset_state_progress_markers
                (getStateEntry ([] : StateTree) (stateKey none))) 0
              rs).bookmark) := rfl
      rw [hkey]
      dsimp only
      unfold finalize_state_progress_markers
      cases hpm : (syncRecordsLoop s (fun _ => c) none
          (reset_state_progress_markers
            (getStateEntry ([] : StateTree) (stateKey none))) 0
          rs).bookmark.progress_max with
      | none =>
        dsimp only
        rw [h4]
        rfl
      | some km =>
        dsimp only
        have hle : km.2 ≤ c := by
          rw [markerLe, hpm] at h3
          simpa using h3
        simpa using hle

/-- Claim C2 witness: with ceiling 10, the record valued 11 is ignored for
the bookmark, while the run over values 5, 11, 7 emits all three records and
ends with a durable bookmark at most 10. -/
theorem c2_signpost_capping_witness :
    increment_state emptyBookmark "updated_at" (some 10) [("updated_at", 11)]
      false = .ok emptyBookmark ∧
    (_sync_records tsStream (fun _ => 10) (fun _ => recsC2) none []).err =
      none ∧
    countRecords (_sync_records tsStream (fun _ => 10) (fun _ => recsC2) none
      []).messages = 3 ∧
    bookmark_value_le (_sync_records tsStream (fun _ => 10) (fun _ => recsC2)
      none []).tree none 10 = true := by
  have h := c2_signpost_capping tsStream 10 recsC2 emptyBookmark "updated_at"
    [("updated_at", 11)] 11 false rfl rfl (by decide) (by decide) (by decide)
  exact ⟨h.1, h.2.1, h.2.2.1, h.2.2.2⟩

/-- Claim C10 witness: with a matching stored key the bookmark value is
returned; with a bookmark stored under a different key the `start_date`
config value is returned instead. -/
theorem c10_witness :
    get_starting_timestamp tsStream rawStateMatching (some "2020-01-01") =
      some "2021-01-01T00:00:00Z" ∧
    get_starting_timestamp tsStream rawStateOtherKey (some "2020-01-01") =
      some "2020-01-01" := by
  constructor
  · have h := (c10_get_starting_timestamp_cases tsStream rawStateMatching
      (some "2020-01-01")).1 (by decide)
    simpa [rawStateMatching, pendulum_parse] using h
  · have h := (c10_get_starting_timestamp_cases tsStream rawStateOtherKey
      (some "2020-01-01")).2 (by decide)
    simpa [pendulum_parse] using h

end SingerSdk
